import Mathlib

/-!
Shallow embedding of the AskLumen voice question-answering client
(`src/pages/Questions.tsx`) and the Supabase edge functions
(`supabase/functions/text-to-speech/index.ts`,
`supabase/functions/speech-to-text/index.ts`).

Conventions:
* JS strings are Lean `String`; character offsets are `Nat`.
* The browser `window.speechSynthesis` global is exposed iff the
  `webSpeechSupported` flag is true (the component sets the flag from
  `'speechSynthesis' in window`); touching the global when it is absent
  raises a TypeError, modelled as a `Bool` "threw" component.
* External HTTP calls are resolved through explicit environment records.
-/

namespace AskLumen

/-- ASCII fragment of the JS `\s` character class (space, tab, LF, VT, FF, CR);
all text manipulated by the claims is ASCII. -/
def jsWs (c : Char) : Bool :=
  c == ' ' || c == '\t' || c == '\n' || c == '\r' || c == '\x0b' || c == '\x0c'

/-- JS `String.prototype.trim` on a character list. -/
def jsTrimList (l : List Char) : List Char :=
  ((l.dropWhile jsWs).reverse.dropWhile jsWs).reverse

/-- JS `String.prototype.trim`. -/
def jsTrim (s : String) : String := ⟨jsTrimList s.toList⟩

/-- `pat` is a leading segment of `l` (character-by-character). -/
def listPre : List Char → List Char → Bool
  | [], _ => true
  | _ :: _, [] => false
  | a :: as, b :: bs => a == b && listPre as bs

/-- `pat` occurs contiguously somewhere in `l`. -/
def listSub (pat : List Char) : List Char → Bool
  | [] => listPre pat []
  | c :: cs => listPre pat (c :: cs) || listSub pat cs

/-- JS `String.prototype.includes`. -/
def strIncludes (s pat : String) : Bool := listSub pat.toList s.toList

/-- JS `String.prototype.substring(n)` (start-offset form used by the code). -/
def strDropChars (n : Nat) (s : String) : String := ⟨s.toList.drop n⟩

/-!
### Regex-replace machinery for `cleanTextForSpeech`

Each JS `replace(/pat/g, rep)` is a left-to-right scan: at every position we
try the pattern; on a match we emit the replacement and continue after the
match, otherwise we copy one character and retry at the next position.  Each
matcher takes the text at the current position and returns the replacement
together with the rest of the input after the match.  The scanner carries
fuel (initialised to the input length) to stay structurally recursive.
-/

/-- One global-replace pass. `m` matches a pattern at the head of the list. -/
def reScan (m : List Char → Option (List Char × List Char)) :
    Nat → List Char → List Char
  | 0, _ => []
  | _, [] => []
  | fuel + 1, c :: cs =>
    match m (c :: cs) with
    | some (rep, rest) => rep ++ reScan m fuel rest
    | none => c :: reScan m fuel cs

/-- Run one global-replace pass over a string. -/
def replacePass (m : List Char → Option (List Char × List Char)) (s : String) :
    String := ⟨reScan m s.toList.length s.toList⟩

/-- `/\*\*([^*]+)\*\*/g → '$1'`. -/
def matchBold : List Char → Option (List Char × List Char)
  | '*' :: '*' :: rest =>
    let p := rest.span (fun c => c != '*')
    if p.1.isEmpty then none
    else match p.2 with
      | '*' :: '*' :: r => some (p.1, r)
      | _ => none
  | _ => none

/-- `/\*([^*]+)\*/g → '$1'`. -/
def matchItalic : List Char → Option (List Char × List Char)
  | '*' :: rest =>
    let p := rest.span (fun c => c != '*')
    if p.1.isEmpty then none
    else match p.2 with
      | '*' :: r => some (p.1, r)
      | _ => none
  | _ => none

/-- `/__([^_]+)__/g → '$1'`. -/
def matchBoldU : List Char → Option (List Char × List Char)
  | '_' :: '_' :: rest =>
    let p := rest.span (fun c => c != '_')
    if p.1.isEmpty then none
    else match p.2 with
      | '_' :: '_' :: r => some (p.1, r)
      | _ => none
  | _ => none

/-- `/_([^_]+)_/g → '$1'`. -/
def matchItalicU : List Char → Option (List Char × List Char)
  | '_' :: rest =>
    let p := rest.span (fun c => c != '_')
    if p.1.isEmpty then none
    else match p.2 with
      | '_' :: r => some (p.1, r)
      | _ => none
  | _ => none

/-- `/#+\s/g → ''`. -/
def matchHeader (l : List Char) : Option (List Char × List Char) :=
  let p := l.span (fun c => c == '#')
  if p.1.isEmpty then none
  else match p.2 with
    | c :: r => if jsWs c then some ([], r) else none
    | [] => none

/-- `/\[([^\]]+)\]\([^)]+\)/g → '$1'`. -/
def matchLink : List Char → Option (List Char × List Char)
  | '[' :: rest =>
    let p := rest.span (fun c => c != ']')
    if p.1.isEmpty then none
    else match p.2 with
      | ']' :: '(' :: rest2 =>
        let q := rest2.span (fun c => c != ')')
        if q.1.isEmpty then none
        else match q.2 with
          | ')' :: r => some (p.1, r)
          | _ => none
      | _ => none
  | _ => none

/-- Code-fence pattern `'''[^']*'''` (three backticks each side) `→ ''`. -/
def matchCodeFence : List Char → Option (List Char × List Char)
  | '`' :: '`' :: '`' :: rest =>
    let p := rest.span (fun c => c != '`')
    match p.2 with
    | '`' :: '`' :: '`' :: r => some ([], r)
    | _ => none
  | _ => none

/-- Inline-code pattern (single backticks) `→ '$1'`. -/
def matchInlineCode : List Char → Option (List Char × List Char)
  | '`' :: rest =>
    let p := rest.span (fun c => c != '`')
    if p.1.isEmpty then none
    else match p.2 with
      | '`' :: r => some (p.1, r)
      | _ => none
  | _ => none

/-- `/\s+/g → ' '`. -/
def matchWsRun (l : List Char) : Option (List Char × List Char) :=
  let p := l.span jsWs
  if p.1.isEmpty then none else some ([' '], p.2)

/-- `/^[-*+]\s/gm → ''`: multiline anchored scan.  `atStart` records whether
the current position begins a line (start of text or just after `'\n'`). -/
def bulletScan : Nat → Bool → List Char → List Char
  | 0, _, _ => []
  | _, _, [] => []
  | fuel + 1, atStart, c :: cs =>
    if atStart && (c == '-' || c == '*' || c == '+') then
      match cs with
      | d :: r =>
        if jsWs d then bulletScan fuel (d == '\n') r
        else c :: bulletScan fuel false cs
      | [] => c :: bulletScan fuel false cs
    else c :: bulletScan fuel (c == '\n') cs

/-- `cleanTextForSpeech` (Questions.tsx:479-504): strips markdown before
narration.  The dynamic `typeof text !== 'string'` guard is vacuous in the
typed embedding; `!text` (empty string) flows through the passes unchanged
and yields `""` exactly as the early return does. -/
def cleanTextForSpeech (text : String) : String :=
  let s1 := replacePass matchBold text
  let s2 := replacePass matchItalic s1
  let s3 := replacePass matchBoldU s2
  let s4 := replacePass matchItalicU s3
  let s5 := replacePass matchHeader s4
  let s6 := replacePass matchLink s5
  let s7 := replacePass matchCodeFence s6
  let s8 := replacePass matchInlineCode s7
  let s9 : String := ⟨bulletScan s8.toList.length true s8.toList⟩
  jsTrim (replacePass matchWsRun s9)

/-!
### Data model (spec §3, Questions.tsx:13-111)

`timestamp` and the image fields are irrelevant to every claim and omitted;
optional JS fields are `Option`/defaulted `Bool`.
-/

inductive Role | user | assistant
deriving DecidableEq, Repr

structure Message where
  id : String
  content : String
  role : Role
  audioUrl : Option String := none
  isPlaying : Bool := false
deriving DecidableEq, Repr

structure SpeechState where
  messageId : Option String
  text : String
  position : Nat
  isPaused : Bool
  isLoading : Bool
deriving DecidableEq, Repr

/-- The reset value used throughout Questions.tsx. -/
def emptySpeechState : SpeechState :=
  { messageId := none, text := "", position := 0, isPaused := false, isLoading := false }

/-- The single `currentAudio` HTMLAudioElement handle (url + paused flag;
the element's time cursor is not needed by any claim). -/
structure AudioEl where
  url : String
  paused : Bool
deriving DecidableEq, Repr

/-- Component state. `webSpeechSupported` doubles as "the
`window.speechSynthesis` global is exposed" (the flag is set from
`'speechSynthesis' in window`); `webSpeaking` is the live
`window.speechSynthesis.speaking` flag. -/
structure AppState where
  messages : List Message
  speechState : SpeechState
  currentAudio : Option AudioEl
  webSpeaking : Bool
  isMuted : Bool
  webSpeechSupported : Bool
deriving DecidableEq, Repr

def initState : AppState :=
  { messages := [], speechState := emptySpeechState, currentAudio := none,
    webSpeaking := false, isMuted := false, webSpeechSupported := false }

def clearAllPlaying (msgs : List Message) : List Message :=
  msgs.map fun m => { m with isPlaying := false }

/-!
### Speech Synthesis Orchestrator operations (Questions.tsx:433-856)

Operations touching `window.speechSynthesis` return `AppState × Bool`
where the `Bool` is "a TypeError escaped" (the global is absent when
`webSpeechSupported = false`); partial state effects made before the
raise are kept, matching the JS evaluation order.
-/

/-- `stopSpeech` (Questions.tsx:685-709). The audio element is paused and
dropped first; reading `window.speechSynthesis.speaking` then raises when
the global is absent. -/
def stopSpeech (s : AppState) : AppState × Bool :=
  let s1 := { s with currentAudio := none }
  if s1.webSpeechSupported then
    ({ s1 with webSpeaking := false,
               speechState := emptySpeechState,
               messages := clearAllPlaying s1.messages }, false)
  else (s1, true)

/-- `pauseSpeech` (Questions.tsx:648-669). -/
def pauseSpeech (s : AppState) : AppState × Bool :=
  match s.speechState.messageId with
  | none => (s, false)
  | some mid =>
    let s1 := { s with currentAudio :=
      s.currentAudio.map (fun a : AudioEl => { a with paused := true }) }
    if s1.webSpeechSupported then
      let s2 := { s1 with webSpeaking := false }
      ({ s2 with
          speechState := { s2.speechState with isPaused := true, isLoading := false },
          messages := s2.messages.map (fun m : Message =>
            if m.id == mid then { m with isPlaying := false } else m) }, false)
    else (s1, true)

/-- `playSpeechFromPosition` (Questions.tsx:711-766): swaps the audio
element and starts playback from the estimated time offset (the element's
`currentTime` seek is not modelled; no claim reads it). -/
def playSpeechFromPosition (s : AppState) (messageId audioUrl text : String)
    (startPosition : Nat) : AppState :=
  { s with
      currentAudio := some { url := audioUrl, paused := false },
      speechState := { s.speechState with
        isPaused := false, isLoading := false, position := startPosition },
      messages := s.messages.map fun m =>
        if m.id == messageId then { m with isPlaying := true }
        else { m with isPlaying := false } }

/-- `speakWithWebSpeech` (Questions.tsx:768-839).  Empty remaining text
stops; otherwise `window.speechSynthesis.cancel()` raises when the global
is absent, else the utterance is spoken. -/
def speakWithWebSpeech (s : AppState) (messageId text : String)
    (startPosition : Nat) : AppState × Bool :=
  let textToSpeak := strDropChars startPosition text
  if jsTrim textToSpeak = "" then stopSpeech s
  else if s.webSpeechSupported then
    ({ s with
        webSpeaking := true,
        speechState := { s.speechState with
          isPaused := false, isLoading := false, position := startPosition },
        messages := s.messages.map fun m =>
          if m.id == messageId then { m with isPlaying := true }
          else { m with isPlaying := false } }, false)
  else (s, true)

/-- `resumeSpeech` (Questions.tsx:671-683). -/
def resumeSpeech (s : AppState) : AppState × Bool :=
  match s.speechState.messageId with
  | some mid =>
    if s.speechState.isPaused then
      match s.messages.find? (fun m => m.id == mid) with
      | some m =>
        match m.audioUrl with
        | some url =>
          if url ≠ "" ∧ url ≠ "web-speech-synthesis" then
            (playSpeechFromPosition s mid url s.speechState.text s.speechState.position,
              false)
          else speakWithWebSpeech s mid s.speechState.text s.speechState.position
        | none => speakWithWebSpeech s mid s.speechState.text s.speechState.position
      | none => speakWithWebSpeech s mid s.speechState.text s.speechState.position
    else (s, false)
  | none => (s, false)

/-- `playAudio` (Questions.tsx:433-466). -/
def playAudio (s : AppState) (messageId audioUrl : String) : AppState :=
  { s with
      currentAudio := some { url := audioUrl, paused := false },
      messages := s.messages.map fun m =>
        if m.id == messageId then { m with isPlaying := true }
        else { m with isPlaying := false } }

/-- `playAudio`'s `onended`/`onerror` handler (Questions.tsx:450-464). -/
def playAudioEnded (s : AppState) (messageId : String) : AppState :=
  { s with currentAudio := none,
           messages := s.messages.map fun m =>
             if m.id == messageId then { m with isPlaying := false } else m }

/-- `stopAudio` (Questions.tsx:467-477). -/
def stopAudio (s : AppState) : AppState :=
  match s.currentAudio with
  | none => s
  | some _ => { s with currentAudio := none, messages := clearAllPlaying s.messages }

/-- The `setMessages` audio-url update inside `startSpeech`
(Questions.tsx:619-632). -/
def setMessageAudioUrl (s : AppState) (messageId url : String) : AppState :=
  { s with messages := s.messages.map fun m =>
      if m.id == messageId then { m with audioUrl := some url } else m }

/-!
### text-to-speech edge function (supabase/functions/text-to-speech/index.ts)
-/

inductive RemoteOutcome
  | ok (body : String)
  | httpErr (status : Nat) (body : String)
deriving DecidableEq, Repr

/-- Environment resolving the two vendor calls.  `openai` is the outcome of
any OpenAI TTS fetch during the request (the handler can issue it twice). -/
structure TtsEnv where
  elevenKey : Bool
  openaiKey : Bool
  elevenThrows : Bool
  eleven : RemoteOutcome
  openai : RemoteOutcome
deriving DecidableEq, Repr

inductive Tier | eleven | openai | web
deriving DecidableEq, Repr

def Tier.idx : Tier → Nat
  | .eleven => 0
  | .openai => 1
  | .web => 2

inductive TtsResp
  | ok (audioContent : String)
  | err (status : Nat) (message : String)
deriving DecidableEq, Repr

/-- The `serve` handler, returning the response and the ordered list of
vendor HTTP calls actually issued. -/
def ttsServe (env : TtsEnv) (text : String) : TtsResp × List Tier :=
  if text = "" then (.err 400 "Text is required", [])
  else if !env.elevenKey then
    if !env.openaiKey then (.err 400 "No text-to-speech API keys configured", [])
    else match env.openai with
      | .ok b => (.ok b, [.openai])
      | .httpErr st body =>
          (.err 400 ("OpenAI TTS API error: " ++ toString st ++ " - " ++ body), [.openai])
  else if env.elevenThrows then
    -- the fetch raised inside the try block; `catch (elevenlabsError)`
    if !env.openaiKey then (.err 400 "ElevenLabs request failed", [.eleven])
    else match env.openai with
      | .ok b => (.ok b, [.eleven, .openai])
      | .httpErr st body =>
          (.err 400 ("Both TTS services failed. ElevenLabs error: request failed. OpenAI: "
            ++ toString st ++ " - " ++ body), [.eleven, .openai])
  else match env.eleven with
    | .ok b => (.ok b, [.eleven])
    | .httpErr st body =>
      if !env.openaiKey then
        -- thrown `ElevenLabs API error`, re-caught by `catch (elevenlabsError)`
        -- which rethrows since OpenAI is unconfigured
        (.err 400 ("ElevenLabs API error: " ++ toString st ++ " - " ++ body), [.eleven])
      else match env.openai with
        | .ok b2 => (.ok b2, [.eleven, .openai])
        | .httpErr st2 body2 =>
          -- the thrown `Both TTS services failed` lands in
          -- `catch (elevenlabsError)`, which retries OpenAI once more
          (.err 400 ("Both TTS services failed. ElevenLabs error: "
              ++ toString st ++ " - " ++ body ++ ". OpenAI: "
              ++ toString st2 ++ " - " ++ body2), [.eleven, .openai, .openai])

/-!
### Client-side audio generation and narration start (Questions.tsx:583-935)
-/

/-- supabase-js surfaces any non-2xx edge response as a FunctionsHttpError
with this fixed message (Questions.tsx:412 matches on it). -/
def invokeErrMsg : String := "Edge Function returned a non-2xx status code"

/-- Toast chosen by `generateAudio` when no fallback is available
(Questions.tsx:910-918). -/
def ttsFailToast (errorMsg : String) : String :=
  if strIncludes errorMsg "401" || strIncludes errorMsg "API key" then
    "TTS unavailable: API key issue"
  else if strIncludes errorMsg "429" || strIncludes errorMsg "quota" then
    "TTS unavailable: API quota exceeded"
  else if strIncludes errorMsg "unusual_activity" then
    "TTS temporarily unavailable due to API limits"
  else "TTS unavailable - continuing with text only"

structure GenAudioResult where
  url : String
  trace : List Tier
  toasts : List String
deriving Repr

/-- `generateAudio` (Questions.tsx:873-935).  `generateWebSpeechAudio` only
returns the `'web-speech-synthesis'` sentinel, so the outer catch is
unreachable here: the function never rejects. -/
def generateAudio (env : TtsEnv) (s : AppState) (text : String) : GenAudioResult :=
  let r := ttsServe env text
  match r.1 with
  | .ok b =>
    if b ≠ "" then { url := "data:audio/mp3;base64," ++ b, trace := r.2, toasts := [] }
    else if s.webSpeechSupported then
      { url := "web-speech-synthesis", trace := r.2, toasts := [] }
    else { url := "", trace := r.2, toasts := [ttsFailToast "Unknown TTS error"] }
  | .err _ _ =>
    if s.webSpeechSupported then
      { url := "web-speech-synthesis", trace := r.2, toasts := [] }
    else { url := "", trace := r.2, toasts := [ttsFailToast invokeErrMsg] }

structure StartResult where
  state : AppState
  trace : List Tier
  toasts : List String
  threw : Bool
deriving Repr

/-- The error-marker test of `startSpeech` (Questions.tsx:596). -/
def errorMarkers (content : String) : Bool :=
  strIncludes content "Error:" || strIncludes content "rate limit" ||
  strIncludes content "quota exceeded" || strIncludes content "API key"

/-- The loading-state write of `startSpeech` (Questions.tsx:604-610). -/
def startSpeechLoading (s : AppState) (messageId content : String) : AppState :=
  { s with speechState :=
    { messageId := some messageId, text := cleanTextForSpeech content,
      position := 0, isPaused := false, isLoading := true } }

/-- The try block of `startSpeech` after the guards (Questions.tsx:601-645):
resolve audio, then play it or fall back to platform synthesis; the catch
converts any raise from the playback attempt into a toast plus an empty
`SpeechState`. -/
def startSpeechRun (env : TtsEnv) (s : AppState) (messageId content : String) :
    StartResult :=
  let cleaned := cleanTextForSpeech content
  let s1 := startSpeechLoading s messageId content
  let g := generateAudio env s1 cleaned
  if g.url ≠ "" ∧ g.url ≠ "web-speech-synthesis" then
    let s2 := setMessageAudioUrl s1 messageId g.url
    { state := playSpeechFromPosition s2 messageId g.url cleaned 0,
      trace := g.trace, toasts := g.toasts, threw := false }
  else
    let s2 := setMessageAudioUrl s1 messageId "web-speech-synthesis"
    let r := speakWithWebSpeech s2 messageId cleaned 0
    -- the platform backend counts as attempted whenever the call reaches
    -- past the empty-text early return
    let webAttempt : List Tier := if jsTrim cleaned = "" then [] else [.web]
    if r.2 then
      -- `catch` in startSpeech: toast and reset SpeechState
      { state := { r.1 with speechState := emptySpeechState },
        trace := g.trace ++ webAttempt,
        toasts := g.toasts ++ ["Failed to generate speech"], threw := false }
    else
      { state := r.1, trace := g.trace ++ webAttempt,
        toasts := g.toasts, threw := false }

/-- `startSpeech` (Questions.tsx:583-646). -/
def startSpeech (env : TtsEnv) (s : AppState) (messageId content : String) :
    StartResult :=
  if s.isMuted then
    { state := s, trace := [],
      toasts := ["Audio is muted. Unmute to hear the response."], threw := false }
  else if jsTrim content = "" then
    { state := s, trace := [],
      toasts := ["No content available for text-to-speech"], threw := false }
  else if errorMarkers content then
    { state := s, trace := [],
      toasts := ["Cannot generate audio for error messages"], threw := false }
  else startSpeechRun env s messageId content

/-- `handleReadAloud` (Questions.tsx:841-856). -/
def handleReadAloud (env : TtsEnv) (s : AppState) (messageId content : String) :
    StartResult :=
  if s.speechState.messageId = some messageId then
    if s.speechState.isPaused then
      let r := resumeSpeech s
      { state := r.1, trace := [], toasts := [], threw := r.2 }
    else if s.speechState.isLoading then
      { state := s, trace := [], toasts := [], threw := false }
    else
      let r := pauseSpeech s
      { state := r.1, trace := [], toasts := [], threw := r.2 }
  else
    let r := stopSpeech s
    if r.2 then { state := r.1, trace := [], toasts := [], threw := true }
    else startSpeech env r.1 messageId content

/-- The guard of `handleGenerateImage` (Questions.tsx:506-513): whether the
generation body is entered at all. -/
def handleGenerateImageProceeds (imageGeneratingHas userPresent : Bool)
    (aiResponse : String) : Bool :=
  if imageGeneratingHas || !userPresent then false
  else if aiResponse = "" || jsTrim aiResponse = "" ||
      strIncludes aiResponse "Error:" || strIncludes aiResponse "rate limit" ||
      strIncludes aiResponse "quota exceeded" then false
  else true

/-!
### Position estimator for platform synthesis (Questions.tsx:812-825)
-/

/-- Position computed by one 500ms interval tick while web speech plays:
`min(startPosition + floor(elapsedSeconds * 15), text.length)` with
`elapsedSeconds = elapsedMs / 1000`. -/
def webSpeechTickPos (text : String) (startPosition elapsedMs : Nat) : Nat :=
  min (startPosition + elapsedMs * 15 / 1000) text.length

/-- The interval callback: updates `position` only while
`window.speechSynthesis.speaking`; otherwise clears the interval and leaves
the state untouched. -/
def webSpeechTick (s : AppState) (text : String) (startPosition elapsedMs : Nat) :
    AppState :=
  if s.webSpeaking then
    { s with speechState := { s.speechState with
        position := webSpeechTickPos text startPosition elapsedMs } }
  else s

/-!
### sendQuestion error classification (Questions.tsx:395-428)
-/

def genericErrorContent : String := "Sorry, I encountered an error. Please try again."
def genericErrorToast : String := "Failed to get response. Please try again."

def rateLimitContent : String := "🚫 **Gemini Rate Limit Reached**\n\nThe Google Gemini API is experiencing high demand. Here are your options:\n\n1. **Try again in a few minutes** - rate limits usually reset quickly\n2. **Check your Google Cloud Console** at [console.cloud.google.com](https://console.cloud.google.com)\n3. **Consider upgrading your quota** for higher limits\n4. **Wait for automatic reset** - most limits reset daily\n\nGemini has generous free tier limits that should handle most usage."
def rateLimitToast : String := "Gemini rate limit reached. Please try again in a few minutes."
def quotaContent : String := "💳 **Gemini Quota Exceeded**\n\nYour Google API account needs attention:\n\n1. **Visit**: [Google Cloud Console](https://console.cloud.google.com)\n2. **Check your API quotas** and billing\n3. **Enable billing** or **increase quotas** if needed\n\nGemini offers a generous free tier for new users."
def quotaToast : String := "Gemini quota exceeded. Check your Google Cloud Console"
def invalidKeyContent : String := "🔑 **Invalid API Key**\n\nThere's an issue with the Gemini API configuration. Please contact support."
def invalidKeyToast : String := "Invalid Gemini API key. Please contact support."
def nonOkContent : String := "⚠️ **Service Temporarily Unavailable**\n\nOur AI service is experiencing high demand. This is likely due to:\n\n- Gemini API rate limiting\n- High server load\n- Temporary service interruption\n\nPlease **try again in a few minutes**. Gemini typically has excellent uptime and generous limits."
def nonOkToast : String := "Service temporarily unavailable. Please try again in a few minutes."

/-- The catch-block classification: maps `error.message` to
`(errorContent, toastMessage)`.  A non-`Error` throw carries no message and
is modelled as `""`. -/
def classifyAIError (msg : String) : String × String :=
  if strIncludes msg "Rate limit reached" || strIncludes msg "rate limit exceeded" then
    (rateLimitContent, rateLimitToast)
  else if strIncludes msg "insufficient_quota" then (quotaContent, quotaToast)
  else if strIncludes msg "invalid_api_key" then (invalidKeyContent, invalidKeyToast)
  else if strIncludes msg "Edge Function returned a non-2xx status code" then
    (nonOkContent, nonOkToast)
  else if msg ≠ "" then ("❌ **Error**: " ++ msg, msg)
  else (genericErrorContent, genericErrorToast)

/-- End of the catch block (Questions.tsx:421-428): toast plus an
assistant-role error bubble appended to the conversation. -/
def sendQuestionCatch (s : AppState) (now : Nat) (msg : String) :
    AppState × String :=
  let c := classifyAIError msg
  ({ s with messages := s.messages ++
      [{ id := "error-" ++ toString now, content := c.1, role := .assistant }] },
    c.2)

/-!
### speech-to-text edge function poll loop
(supabase/functions/speech-to-text/index.ts:107-140)
-/

inductive PollReply
  | httpErr (msg : String)
  | status (st : String) (text : Option String) (err : String)
deriving DecidableEq, Repr

inductive PollResult
  | done (text : String) (polls : Nat)
  | fail (msg : String) (polls : Nat)
  | timeout (polls : Nat)
deriving DecidableEq, Repr

/-- The `while (attempts < maxAttempts)` loop; `remaining` is
`maxAttempts - attempts`, `oracle i` the i-th poll response. -/
def pollLoopAux (oracle : Nat → PollReply) : Nat → Nat → PollResult
  | attempts, 0 => .timeout attempts
  | attempts, k + 1 =>
    match oracle attempts with
    | .httpErr m => .fail ("AssemblyAI poll error: " ++ m) (attempts + 1)
    | .status st text err =>
      if st = "completed" then .done (text.getD "") (attempts + 1)
      else if st = "error" then .fail ("Transcription failed: " ++ err) (attempts + 1)
      else pollLoopAux oracle (attempts + 1) k

def maxAttempts : Nat := 30

/-- Poll section plus the surrounding try/catch: a thrown error becomes a
handled 500 response.  Returns ((HTTP status, body), number of polls). -/
def speechToTextPoll (oracle : Nat → PollReply) : (Nat × String) × Nat :=
  match pollLoopAux oracle 0 maxAttempts with
  | .done t p => ((200, t), p)
  | .fail m p => ((500, m), p)
  | .timeout p => ((500, "Transcription timeout - please try again"), p)

def PollResult.polls : PollResult → Nat
  | .done _ p => p
  | .fail _ p => p
  | .timeout p => p

/-!
### Derived predicates and the event system
-/

/-- The client falls back to tier 3 exactly when the edge call yields no
usable audio: an error response or an empty/absent `audioContent`. -/
def remoteAudioUnavailable (env : TtsEnv) (text : String) : Bool :=
  match (ttsServe env text).1 with
  | .err _ _ => true
  | .ok b => b == ""

def elevenFailsB (env : TtsEnv) : Bool :=
  env.elevenThrows ||
    (match env.eleven with | .ok _ => false | .httpErr _ _ => true)

/-- Tier 1 yields no audio: key missing, fetch raised, or non-OK status. -/
def elevenUnavailableB (env : TtsEnv) : Bool := !env.elevenKey || elevenFailsB env

def openaiFailsB (env : TtsEnv) : Bool :=
  match env.openai with | .ok _ => false | .httpErr _ _ => true

/-- Tier 2 yields no audio: key missing or non-OK status. -/
def openaiUnavailableB (env : TtsEnv) : Bool := !env.openaiKey || openaiFailsB env

/-- A sane vendor environment: a 200 response carries a nonempty body. -/
def envBodiesNonempty (env : TtsEnv) : Prop :=
  (∀ b, env.eleven = .ok b → b ≠ "") ∧ (∀ b, env.openai = .ok b → b ≠ "")

def playingCount (s : AppState) : Nat := s.messages.countP (fun m => m.isPlaying)

def idsNodup (s : AppState) : Prop := (s.messages.map Message.id).Nodup

/-- The event transitions of the component: every operation of Questions.tsx
that can touch `messages`, `speechState` or the backends.  Message creation
(`sendQuestion`, the catch block) appends a non-playing message under a
fresh id (a `Date.now()`-derived id or a DB uuid). -/
inductive Step : AppState → AppState → Prop
  | playAudioS (s : AppState) (mid url : String) : Step s (playAudio s mid url)
  | playAudioEndedS (s : AppState) (mid : String) : Step s (playAudioEnded s mid)
  | stopAudioS (s : AppState) : Step s (stopAudio s)
  | playFromPosS (s : AppState) (mid url text : String) (pos : Nat) :
      Step s (playSpeechFromPosition s mid url text pos)
  | speakWebS (s : AppState) (mid text : String) (pos : Nat) :
      Step s (speakWithWebSpeech s mid text pos).1
  | pauseS (s : AppState) : Step s (pauseSpeech s).1
  | resumeS (s : AppState) : Step s (resumeSpeech s).1
  | stopS (s : AppState) : Step s (stopSpeech s).1
  | startS (env : TtsEnv) (s : AppState) (mid content : String) :
      Step s (startSpeech env s mid content).state
  | readAloudS (env : TtsEnv) (s : AppState) (mid content : String) :
      Step s (handleReadAloud env s mid content).state
  | webTickS (s : AppState) (text : String) (pos e : Nat) :
      Step s (webSpeechTick s text pos e)
  | setAudioUrlS (s : AppState) (mid url : String) :
      Step s (setMessageAudioUrl s mid url)
  | appendMsgS (s : AppState) (m : Message)
      (hfresh : ∀ m' ∈ s.messages, m'.id ≠ m.id) (hnp : m.isPlaying = false) :
      Step s { s with messages := s.messages ++ [m] }
  | sendCatchS (s : AppState) (now : Nat) (msg : String)
      (hfresh : ∀ m' ∈ s.messages, m'.id ≠ "error-" ++ toString now) :
      Step s (sendQuestionCatch s now msg).1
  | setMutedS (s : AppState) (b : Bool) : Step s { s with isMuted := b }
  | setSupportedS (s : AppState) (b : Bool) :
      Step s { s with webSpeechSupported := b }

/-- States reachable from the freshly mounted component. -/
def Reachable (s : AppState) : Prop := Relation.ReflTransGen Step initState s

/-- The single-flight invariant: message ids are distinct (they are
`Date.now()`-derived or DB uuids) and at most one message is playing. -/
def Inv (s : AppState) : Prop :=
  (s.messages.map Message.id).Nodup ∧ playingCount s ≤ 1

/-!
## Theorems
-/

theorem pollLoopAux_polls_le (oracle : Nat → PollReply) :
    ∀ k a, (pollLoopAux oracle a k).polls ≤ a + k := by
  intro k
  induction k with
  | zero => intro a; simp [pollLoopAux, PollResult.polls]
  | succ k ih =>
    intro a
    unfold pollLoopAux
    cases oracle a with
    | httpErr m => simp [PollResult.polls]
    | status st t e =>
      by_cases h1 : st = "completed"
      · simp [h1, PollResult.polls]
      · by_cases h2 : st = "error"
        · simp [h1, h2, PollResult.polls]
        · simp only [h1, h2, if_false]
          have := ih (a + 1)
          omega

theorem pollLoopAux_timeout (oracle : Nat → PollReply) :
    ∀ k a, (∀ i, a ≤ i → i < a + k → oracle i = .status "processing" none "") →
      pollLoopAux oracle a k = .timeout (a + k) := by
  intro k
  induction k with
  | zero => intro a _; simp [pollLoopAux]
  | succ k ih =>
    intro a h
    have ha : oracle a = .status "processing" none "" := h a le_rfl (by omega)
    have hrec : pollLoopAux oracle (a + 1) k = .timeout (a + 1 + k) :=
      ih (a + 1) (fun i h1 h2 => h i (by omega) (by omega))
    unfold pollLoopAux
    rw [ha]
    simp only [String.reduceEq, if_false, reduceIte]
    rw [hrec]
    rw [show a + 1 + k = a + (k + 1) by omega]

theorem pollLoopAux_early (oracle : Nat → PollReply) :
    ∀ j k a, j < k →
      (∀ i, a ≤ i → i < a + j → oracle i = .status "processing" none "") →
      (∀ t e, oracle (a + j) = .status "completed" t e →
        pollLoopAux oracle a k = .done (t.getD "") (a + j + 1)) ∧
      (∀ t e, oracle (a + j) = .status "error" t e →
        pollLoopAux oracle a k = .fail ("Transcription failed: " ++ e) (a + j + 1)) := by
  intro j
  induction j with
  | zero =>
    intro k a hk _
    obtain ⟨k', rfl⟩ : ∃ k', k = k' + 1 := ⟨k - 1, by omega⟩
    constructor
    · intro t e hj
      rw [Nat.add_zero] at hj
      unfold pollLoopAux
      rw [hj]
      simp
    · intro t e hj
      rw [Nat.add_zero] at hj
      unfold pollLoopAux
      rw [hj]
      simp
  | succ j ih =>
    intro k a hk h
    obtain ⟨k', rfl⟩ : ∃ k', k = k' + 1 := ⟨k - 1, by omega⟩
    have ha : oracle a = .status "processing" none "" := h a le_rfl (by omega)
    have heq : pollLoopAux oracle a (k' + 1) = pollLoopAux oracle (a + 1) k' := by
      conv_lhs => rw [pollLoopAux]
      rw [ha]
      simp
    have hrec := ih k' (a + 1) (by omega) (fun i h1 h2 => h i (by omega) (by omega))
    constructor
    · intro t e hj
      rw [heq]
      rw [show a + (j + 1) + 1 = a + 1 + j + 1 by omega]
      exact hrec.1 t e (by rw [show a + 1 + j = a + (j + 1) by omega]; exact hj)
    · intro t e hj
      rw [heq]
      rw [show a + (j + 1) + 1 = a + 1 + j + 1 by omega]
      exact hrec.2 t e (by rw [show a + 1 + j = a + (j + 1) by omega]; exact hj)

/-- C9: the speech-to-text transcription poll loop makes at most 30 poll
attempts; it exits early with the transcript on a completed status and with
a handled failure on an errored status, and an input still processing after
the 30th attempt yields the handled timeout error response (HTTP 500 with
the timeout message), not an unbounded loop or a crash. -/
theorem c9_transcription_poll_bounded (oracle : Nat → PollReply) :
    (speechToTextPoll oracle).2 ≤ 30 ∧
    ((∀ i, i < 30 → oracle i = .status "processing" none "") →
      speechToTextPoll oracle = ((500, "Transcription timeout - please try again"), 30)) ∧
    (∀ j t e, j < 30 → (∀ i, i < j → oracle i = .status "processing" none "") →
      oracle j = .status "completed" t e →
      speechToTextPoll oracle = ((200, t.getD ""), j + 1)) ∧
    (∀ j t e, j < 30 → (∀ i, i < j → oracle i = .status "processing" none "") →
      oracle j = .status "error" t e →
      speechToTextPoll oracle = ((500, "Transcription failed: " ++ e), j + 1)) := by
  refine ⟨?_, ?_, ?_, ?_⟩
  · have h := pollLoopAux_polls_le oracle maxAttempts 0
    unfold speechToTextPoll
    rcases hres : pollLoopAux oracle 0 maxAttempts with t | f | p <;>
      rw [hres] at h <;> simpa [PollResult.polls, maxAttempts] using h
  · intro h
    have hti := pollLoopAux_timeout oracle maxAttempts 0
      (fun i h1 h2 => h i (by simpa [maxAttempts] using h2))
    unfold speechToTextPoll
    rw [hti]
    simp [maxAttempts]
  · intro j t e hj hpre hja
    have hdn := (pollLoopAux_early oracle j maxAttempts 0 (by simpa [maxAttempts] using hj)
      (fun i h1 h2 => hpre i (by omega))).1 t e (by simpa using hja)
    unfold speechToTextPoll
    rw [hdn]
    simp
  · intro j t e hj hpre hja
    have hfl := (pollLoopAux_early oracle j maxAttempts 0 (by simpa [maxAttempts] using hj)
      (fun i h1 h2 => hpre i (by omega))).2 t e (by simpa using hja)
    unfold speechToTextPoll
    rw [hfl]
    simp

/-- Witness for C9 at a concrete always-processing oracle. -/
theorem c9_transcription_poll_bounded_witness :
    speechToTextPoll (fun _ => .status "processing" none "") =
      ((500, "Transcription timeout - please try again"), 30) :=
  (c9_transcription_poll_bounded (fun _ => .status "processing" none "")).2.1
    (fun _ _ => rfl)

/-- C7: `cleanTextForSpeech` strips the markdown of the given sample exactly
as the spec's round-trip example states. -/
theorem c7_cleanTextForSpeech_sample :
    cleanTextForSpeech "**bold** and *italic* and `code`" =
      "bold and italic and code" := by
  decide

theorem clearAllPlaying_idem (l : List Message) :
    clearAllPlaying (clearAllPlaying l) = clearAllPlaying l := by
  simp [clearAllPlaying, List.map_map]

/-- C5: whatever the current state (with the speech-synthesis global exposed,
which is the runtime's side, not part of the spec's data-model state),
`stopSpeech` halts both playback backends, resets `SpeechState` to its empty
value, clears `isPlaying` on every message (including never-narrated ones),
raises nothing even when no narration is active, and a second consecutive
call changes nothing. -/
theorem c5_stopSpeech_resets (s : AppState) (h : s.webSpeechSupported = true) :
    (stopSpeech s).2 = false ∧
    (stopSpeech s).1.currentAudio = none ∧
    (stopSpeech s).1.webSpeaking = false ∧
    (stopSpeech s).1.speechState = emptySpeechState ∧
    (∀ m ∈ (stopSpeech s).1.messages, m.isPlaying = false) ∧
    stopSpeech (stopSpeech s).1 = stopSpeech s := by
  have e1 : stopSpeech s =
      ({ s with
          currentAudio := none,
          webSpeaking := false,
          speechState := emptySpeechState,
          messages := clearAllPlaying s.messages }, false) := by
    unfold stopSpeech
    simp [h]
  refine ⟨by rw [e1], by rw [e1], by rw [e1], by rw [e1], ?_, ?_⟩
  · rw [e1]
    intro m hm
    simp only [clearAllPlaying, List.mem_map] at hm
    obtain ⟨x, _, rfl⟩ := hm
    rfl
  · rw [e1]
    unfold stopSpeech
    simp [h, clearAllPlaying_idem]

/-- Witness for C5 at a concrete state with a stray playing message and an
active audio element.  AppState fields: messages, speechState, currentAudio,
webSpeaking, isMuted, webSpeechSupported. -/
theorem c5_stopSpeech_resets_witness :
    (stopSpeech ⟨[⟨"m1", "hi", .assistant, none, true⟩],
      ⟨some "m1", "hi", 1, false, false⟩, some ⟨"u", false⟩,
      true, false, true⟩).1.speechState = emptySpeechState :=
  (c5_stopSpeech_resets _ rfl).2.2.2.1

/-- C6: for platform-synthesis narration the polled position estimate
`min(startPosition + floor(elapsedSeconds * 15), text.length)` is
monotonically non-decreasing in elapsed time, a tick while speaking
recomputes the position to exactly that value, and after `pauseSpeech`
(which cancels the utterance, so `speechSynthesis.speaking` is false) any
later tick leaves the position frozen at its value at pause time. -/
theorem c6_position_monotone_freezes (text : String) (startPos e1 e2 : Nat)
    (h12 : e1 ≤ e2) (s : AppState) (mid : String)
    (hmid : s.speechState.messageId = some mid)
    (hsup : s.webSpeechSupported = true) :
    webSpeechTickPos text startPos e1 ≤ webSpeechTickPos text startPos e2 ∧
    (∀ s' : AppState, s'.webSpeaking = true →
      (webSpeechTick s' text startPos e1).speechState.position =
        webSpeechTickPos text startPos e1) ∧
    (∀ e3, (webSpeechTick (pauseSpeech s).1 text startPos e3).speechState.position =
      (pauseSpeech s).1.speechState.position) := by
  refine ⟨?_, ?_, ?_⟩
  · unfold webSpeechTickPos
    have hdiv : e1 * 15 / 1000 ≤ e2 * 15 / 1000 :=
      Nat.div_le_div_right (Nat.mul_le_mul_right 15 h12)
    exact min_le_min (Nat.add_le_add_left hdiv startPos) le_rfl
  · intro s' hs'
    simp [webSpeechTick, hs']
  · intro e3
    have hnospeak : (pauseSpeech s).1.webSpeaking = false := by
      unfold pauseSpeech
      rw [hmid]
      simp [hsup]
    simp [webSpeechTick, hnospeak]

/-- Witness for C6 at concrete elapsed times and a concrete speaking state. -/
theorem c6_position_monotone_freezes_witness :
    webSpeechTickPos "hello world" 0 1000 ≤ webSpeechTickPos "hello world" 0 2000 :=
  (c6_position_monotone_freezes "hello world" 0 1000 2000 (by decide)
    ⟨[], ⟨some "m1", "hello world", 3, false, false⟩, none, true, false, true⟩
    "m1" rfl rfl).1

/-- C10: `resumeSpeech` on a paused platform-synthesis narration whose
remaining text from the stored position is empty or whitespace-only
performs a full stop: `SpeechState` reset to its empty value, `isPlaying`
cleared on every message, both backends halted, no new utterance. -/
theorem c10_resume_whitespace_tail_stops (s : AppState) (mid : String)
    (hmid : s.speechState.messageId = some mid)
    (hp : s.speechState.isPaused = true)
    (hsup : s.webSpeechSupported = true)
    (hurl : ∀ m ∈ s.messages, m.id = mid → m.audioUrl = some "web-speech-synthesis")
    (hrem : jsTrim (strDropChars s.speechState.position s.speechState.text) = "") :
    resumeSpeech s =
      (({ s with
          currentAudio := none,
          webSpeaking := false,
          speechState := emptySpeechState,
          messages := clearAllPlaying s.messages } : AppState), false) ∧
    ∀ m ∈ (resumeSpeech s).1.messages, m.isPlaying = false := by
  have hstop : speakWithWebSpeech s mid s.speechState.text s.speechState.position =
      (({ s with
          currentAudio := none,
          webSpeaking := false,
          speechState := emptySpeechState,
          messages := clearAllPlaying s.messages } : AppState), false) := by
    unfold speakWithWebSpeech stopSpeech
    simp [hrem, hsup]
  have hmain : resumeSpeech s =
      (({ s with
          currentAudio := none,
          webSpeaking := false,
          speechState := emptySpeechState,
          messages := clearAllPlaying s.messages } : AppState), false) := by
    unfold resumeSpeech
    rw [hmid]
    simp only [hp, if_true]
    rcases hf : s.messages.find? (fun m => m.id == mid) with _ | m
    · rw [hf]
      exact hstop
    · rw [hf]
      have hid : m.id = mid := by
        have := List.find?_some hf
        simpa using this
      have hau : m.audioUrl = some "web-speech-synthesis" :=
        hurl m (List.mem_of_find?_eq_some hf) hid
      dsimp only
      rw [hau]
      dsimp only
      rw [if_neg (by simp)]
      exact hstop
  refine ⟨hmain, ?_⟩
  rw [hmain]
  intro m hm
  simp only [clearAllPlaying, List.mem_map] at hm
  obtain ⟨x, _, rfl⟩ := hm
  rfl

theorem listPre_append_left (p q l : List Char) (h : listPre (p ++ q) l = true) :
    listPre p l = true := by
  induction p generalizing l with
  | nil => rfl
  | cons a as ih =>
    cases l with
    | nil => simp [listPre] at h
    | cons b bs =>
      simp only [List.cons_append, listPre, Bool.and_eq_true] at h ⊢
      exact ⟨h.1, ih bs h.2⟩

theorem listSub_append_left (p q l : List Char) (h : listSub (p ++ q) l = true) :
    listSub p l = true := by
  induction l with
  | nil =>
    cases p with
    | nil => rfl
    | cons a as => simp [listSub, listPre] at h
  | cons c cs ih =>
    simp only [listSub, Bool.or_eq_true] at h ⊢
    rcases h with h | h
    · exact Or.inl (listPre_append_left p q _ h)
    · exact Or.inr (ih h)

/-- JS `includes` is monotone under pattern extension: a string containing
`"rate limit exceeded"` contains `"rate limit"`. -/
theorem strIncludes_rate_limit (c : String)
    (h : strIncludes c "rate limit exceeded" = true) :
    strIncludes c "rate limit" = true := by
  have hsplit : ("rate limit exceeded" : String).toList =
      ("rate limit" : String).toList ++ (" exceeded" : String).toList := by decide
  unfold strIncludes at h ⊢
  rw [hsplit] at h
  exact listSub_append_left _ _ _ h

/-- C3: `startSpeech` rejects (no provider call, no playback, state
untouched) muted narration, empty/whitespace content, and content holding
any of the four error-marker substrings — hence in particular any content
containing "rate limit exceeded"; `handleGenerateImage` likewise refuses
error-marker or empty content. (`typeof content !== 'string'` is vacuous in
the typed embedding.) -/
theorem c3_startSpeech_guards (env : TtsEnv) (s : AppState) (mid content : String)
    (ig up : Bool) :
    (s.isMuted = true → startSpeech env s mid content =
      { state := s, trace := [],
        toasts := ["Audio is muted. Unmute to hear the response."], threw := false }) ∧
    (jsTrim content = "" → (startSpeech env s mid content).state = s ∧
      (startSpeech env s mid content).trace = []) ∧
    ((strIncludes content "Error:" = true ∨ strIncludes content "rate limit" = true ∨
      strIncludes content "quota exceeded" = true ∨ strIncludes content "API key" = true) →
      (startSpeech env s mid content).state = s ∧
      (startSpeech env s mid content).trace = []) ∧
    (strIncludes content "rate limit exceeded" = true →
      (startSpeech env s mid content).state = s ∧
      (startSpeech env s mid content).trace = []) ∧
    ((strIncludes content "Error:" = true ∨ strIncludes content "rate limit" = true ∨
      strIncludes content "quota exceeded" = true ∨ jsTrim content = "") →
      handleGenerateImageProceeds ig up content = false) := by
  have hmark : ∀ h : strIncludes content "Error:" = true ∨
      strIncludes content "rate limit" = true ∨
      strIncludes content "quota exceeded" = true ∨
      strIncludes content "API key" = true, errorMarkers content = true := by
    intro h
    unfold errorMarkers
    rcases h with h | h | h | h <;> simp [h]
  have hguard : errorMarkers content = true →
      (startSpeech env s mid content).state = s ∧
      (startSpeech env s mid content).trace = [] := by
    intro h
    by_cases hm : s.isMuted = true
    · simp [startSpeech, hm]
    · by_cases ht : jsTrim content = ""
      · simp [startSpeech, hm, ht]
      · simp [startSpeech, hm, ht, h]
  refine ⟨?_, ?_, ?_, ?_, ?_⟩
  · intro hm
    simp [startSpeech, hm]
  · intro ht
    by_cases hm : s.isMuted = true
    · simp [startSpeech, hm]
    · simp [startSpeech, hm, ht]
  · intro h
    exact hguard (hmark h)
  · intro h
    exact hguard (hmark (Or.inr (Or.inl (strIncludes_rate_limit content h))))
  · intro h
    unfold handleGenerateImageProceeds
    by_cases hig : (ig || !up) = true
    · simp [hig]
    · rcases h with h | h | h | h <;> simp [hig, h]

/-- Witness for C3: content containing "rate limit exceeded" leaves the
state untouched and issues no provider call. -/
theorem c3_startSpeech_guards_witness :
    (startSpeech ⟨true, true, false, .ok "a", .ok "b"⟩ initState "m1"
      "the rate limit exceeded today").state = initState :=
  ((c3_startSpeech_guards ⟨true, true, false, .ok "a", .ok "b"⟩ initState "m1"
    "the rate limit exceeded today" false false).2.2.2.1 (by decide)).1

/-- C8 counterexample: the error message "boom" matches none of the
classified substrings, yet `sendQuestion`'s catch block does not map it to
the generic error message — it echoes the message verbatim instead. -/
theorem c8_unmatched_error_not_generic_counterexample :
    (strIncludes "boom" "Rate limit reached" = false ∧
     strIncludes "boom" "rate limit exceeded" = false ∧
     strIncludes "boom" "insufficient_quota" = false ∧
     strIncludes "boom" "invalid_api_key" = false ∧
     strIncludes "boom" "Edge Function returned a non-2xx status code" = false) ∧
    classifyAIError "boom" = ("❌ **Error**: boom", "boom") ∧
    classifyAIError "boom" ≠ (genericErrorContent, genericErrorToast) := by
  decide

/-- C8 (amended): the catch block of `sendQuestion` classifies the error
text by substring — rate limit, quota ("insufficient_quota"), invalid key
("invalid_api_key"), non-2xx status — mapping each class to a distinct
content/toast pair; an error matching none of these substrings but carrying
a nonempty message is echoed verbatim as "❌ **Error**: message" with the
raw message as toast, and only a message-less error falls through to the
generic pair; in every case an assistant-role error message is appended. -/
theorem c8_error_classification (msg : String) (s : AppState) (now : Nat) :
    (rateLimitContent ≠ quotaContent ∧ rateLimitContent ≠ invalidKeyContent ∧
     rateLimitContent ≠ nonOkContent ∧ quotaContent ≠ invalidKeyContent ∧
     quotaContent ≠ nonOkContent ∧ invalidKeyContent ≠ nonOkContent ∧
     rateLimitToast ≠ quotaToast ∧ rateLimitToast ≠ invalidKeyToast ∧
     rateLimitToast ≠ nonOkToast ∧ quotaToast ≠ invalidKeyToast ∧
     quotaToast ≠ nonOkToast ∧ invalidKeyToast ≠ nonOkToast) ∧
    ((strIncludes msg "Rate limit reached" = true ∨
      strIncludes msg "rate limit exceeded" = true) →
      classifyAIError msg = (rateLimitContent, rateLimitToast)) ∧
    (strIncludes msg "Rate limit reached" = false →
      strIncludes msg "rate limit exceeded" = false →
      strIncludes msg "insufficient_quota" = true →
      classifyAIError msg = (quotaContent, quotaToast)) ∧
    (strIncludes msg "Rate limit reached" = false →
      strIncludes msg "rate limit exceeded" = false →
      strIncludes msg "insufficient_quota" = false →
      strIncludes msg "invalid_api_key" = true →
      classifyAIError msg = (invalidKeyContent, invalidKeyToast)) ∧
    (strIncludes msg "Rate limit reached" = false →
      strIncludes msg "rate limit exceeded" = false →
      strIncludes msg "insufficient_quota" = false →
      strIncludes msg "invalid_api_key" = false →
      strIncludes msg "Edge Function returned a non-2xx status code" = true →
      classifyAIError msg = (nonOkContent, nonOkToast)) ∧
    (strIncludes msg "Rate limit reached" = false →
      strIncludes msg "rate limit exceeded" = false →
      strIncludes msg "insufficient_quota" = false →
      strIncludes msg "invalid_api_key" = false →
      strIncludes msg "Edge Function returned a non-2xx status code" = false →
      msg ≠ "" →
      classifyAIError msg = ("❌ **Error**: " ++ msg, msg)) ∧
    (msg = "" → classifyAIError msg = (genericErrorContent, genericErrorToast)) ∧
    ((sendQuestionCatch s now msg).1.messages = s.messages ++
      [{ id := "error-" ++ toString now, content := (classifyAIError msg).1,
         role := .assistant }]) := by
  refine ⟨by decide, ?_, ?_, ?_, ?_, ?_, ?_, rfl⟩
  · intro h
    rcases h with h | h <;> simp [classifyAIError, h]
  · intro h1 h2 h3
    simp [classifyAIError, h1, h2, h3]
  · intro h1 h2 h3 h4
    simp [classifyAIError, h1, h2, h3, h4]
  · intro h1 h2 h3 h4 h5
    simp [classifyAIError, h1, h2, h3, h4, h5]
  · intro h1 h2 h3 h4 h5 h6
    simp [classifyAIError, h1, h2, h3, h4, h5, h6]
  · intro h
    subst h
    decide

/-- Witness for C8 (amended) at a concrete unmatched nonempty message. -/
theorem c8_error_classification_witness :
    classifyAIError "mystery glitch" = ("❌ **Error**: mystery glitch", "mystery glitch") :=
  (c8_error_classification "mystery glitch" initState 0).2.2.2.2.2.1
    (by decide) (by decide) (by decide) (by decide) (by decide) (by decide)

/-- Witness for C10 at a concrete paused-at-end state. -/
theorem c10_resume_whitespace_tail_stops_witness :
    (resumeSpeech ⟨[⟨"m1", "hi there", .assistant, some "web-speech-synthesis", false⟩],
      ⟨some "m1", "hi there", 8, true, false⟩, none, false, false,
      true⟩).1.speechState = emptySpeechState := by
  have h := c10_resume_whitespace_tail_stops
    ⟨[⟨"m1", "hi there", .assistant, some "web-speech-synthesis", false⟩],
      ⟨some "m1", "hi there", 8, true, false⟩, none, false, false, true⟩ "m1"
    rfl rfl rfl (by intro m hm hid; simp at hm; rw [hm]) (by decide)
  rw [h.1]

theorem strDropChars_zero (s : String) : strDropChars 0 s = s := rfl

theorem ttsFailToast_unavailable (msg : String) :
    strIncludes (ttsFailToast msg) "unavailable" = true := by
  unfold ttsFailToast
  repeat' split
  all_goals decide

theorem generateAudio_unavailable (env : TtsEnv) (s : AppState) (text : String)
    (hsup : s.webSpeechSupported = false)
    (hremote : remoteAudioUnavailable env text = true) :
    (generateAudio env s text).url = "" ∧
    ∃ msg, (generateAudio env s text).toasts = [ttsFailToast msg] := by
  unfold remoteAudioUnavailable at hremote
  simp only [generateAudio]
  rcases hr : (ttsServe env text).1 with b | ⟨st, m⟩
  · rw [hr] at hremote
    have hb : b = "" := by simpa using hremote
    subst hb
    exact ⟨by simp [hsup], "Unknown TTS error", by simp [hsup]⟩
  · exact ⟨by simp [hsup], invokeErrMsg, by simp [hsup]⟩

/-- Guard pass-through: with all three preconditions satisfied,
`startSpeech` runs its try block. -/
theorem startSpeech_eq_run (env : TtsEnv) (s : AppState) (mid content : String)
    (hm : s.isMuted = false) (ht : ¬ jsTrim content = "")
    (hmark : ¬ errorMarkers content = true) :
    startSpeech env s mid content = startSpeechRun env s mid content := by
  simp [startSpeech, hm, ht, hmark]

/-- C4: when no audio provider is available — the remote chain yields no
audio and platform synthesis is unsupported — `startSpeech` surfaces an
"unavailable" toast, raises nothing to its caller, ends with `SpeechState`
equal to its empty value, and the message list survives intact (only the
attempted message's `audioUrl` field is marked), so the conversation
continues in text-only mode. -/
theorem c4_total_failure_text_only (env : TtsEnv) (s : AppState)
    (mid content : String)
    (hm : s.isMuted = false)
    (ht : ¬ jsTrim content = "")
    (hmark : ¬ errorMarkers content = true)
    (hsup : s.webSpeechSupported = false)
    (hremote : remoteAudioUnavailable env (cleanTextForSpeech content) = true) :
    (startSpeech env s mid content).state.speechState = emptySpeechState ∧
    (startSpeech env s mid content).threw = false ∧
    (startSpeech env s mid content).state.messages = s.messages.map (fun m =>
      if m.id == mid then { m with audioUrl := some "web-speech-synthesis" }
      else m) ∧
    ∃ t ∈ (startSpeech env s mid content).toasts,
      strIncludes t "unavailable" = true := by
  obtain ⟨hu, msg0, htoast⟩ := generateAudio_unavailable env
    (startSpeechLoading s mid content) (cleanTextForSpeech content) hsup hremote
  rw [startSpeech_eq_run env s mid content hm ht hmark]
  have hspeak : ∀ s2 : AppState, s2.webSpeechSupported = false →
      (speakWithWebSpeech s2 mid (cleanTextForSpeech content) 0).2 = true ∧
      (speakWithWebSpeech s2 mid (cleanTextForSpeech content) 0).1.messages =
        s2.messages := by
    intro s2 hsup2
    unfold speakWithWebSpeech
    rw [strDropChars_zero]
    by_cases hcl : jsTrim (cleanTextForSpeech content) = ""
    · simp [hcl, stopSpeech, hsup2]
    · simp [hcl, hsup2]
  have hsup2 : (setMessageAudioUrl (startSpeechLoading s mid content) mid
      "web-speech-synthesis").webSpeechSupported = false := hsup
  obtain ⟨h2, h3⟩ := hspeak _ hsup2
  have hcond : ¬((generateAudio env (startSpeechLoading s mid content)
      (cleanTextForSpeech content)).url ≠ "" ∧
      (generateAudio env (startSpeechLoading s mid content)
        (cleanTextForSpeech content)).url ≠ "web-speech-synthesis") := by
    rw [hu]
    simp
  have hrun : startSpeechRun env s mid content =
      { state := { (speakWithWebSpeech (setMessageAudioUrl
            (startSpeechLoading s mid content) mid "web-speech-synthesis") mid
            (cleanTextForSpeech content) 0).1 with speechState := emptySpeechState },
        trace := (generateAudio env (startSpeechLoading s mid content)
            (cleanTextForSpeech content)).trace ++
          (if jsTrim (cleanTextForSpeech content) = "" then [] else [Tier.web]),
        toasts := (generateAudio env (startSpeechLoading s mid content)
            (cleanTextForSpeech content)).toasts ++ ["Failed to generate speech"],
        threw := false } := by
    simp only [startSpeechRun]
    rw [if_neg hcond, if_pos h2]
  rw [hrun]
  refine ⟨rfl, rfl, ?_, ?_⟩
  · dsimp only
    rw [h3]
    dsimp only [setMessageAudioUrl, startSpeechLoading]
  · refine ⟨ttsFailToast msg0, ?_, ttsFailToast_unavailable msg0⟩
    dsimp only
    rw [htoast]
    simp

theorem dataUri_ne (b : String) :
    ¬("data:audio/mp3;base64," ++ b = "") ∧
    ¬("data:audio/mp3;base64," ++ b = "web-speech-synthesis") := by
  have hlen : ("data:audio/mp3;base64," : String).length = 22 := by decide
  have hemp : ("" : String).length = 0 := by decide
  have hsent : ("web-speech-synthesis" : String).length = 20 := by decide
  constructor
  · intro h
    have h2 := congrArg String.length h
    rw [String.length_append, hlen, hemp] at h2
    omega
  · intro h
    have h2 := congrArg String.length h
    rw [String.length_append, hlen, hsent] at h2
    omega

theorem generateAudio_trace (env : TtsEnv) (s : AppState) (t : String) :
    (generateAudio env s t).trace = (ttsServe env t).2 := by
  simp only [generateAudio]
  rcases (ttsServe env t).1 with b | ⟨st, m⟩
  · dsimp only
    split_ifs <;> rfl
  · dsimp only
    split_ifs <;> rfl

theorem generateAudio_playable (env : TtsEnv) (s : AppState) (t : String)
    (hav : remoteAudioUnavailable env t = false) :
    (generateAudio env s t).url ≠ "" ∧
    (generateAudio env s t).url ≠ "web-speech-synthesis" := by
  unfold remoteAudioUnavailable at hav
  simp only [generateAudio]
  rcases hr : (ttsServe env t).1 with b | ⟨st, m⟩
  · rw [hr] at hav
    have hb : ¬(b = "") := by simpa using hav
    dsimp only
    rw [if_pos hb]
    exact dataUri_ne b
  · rw [hr] at hav
    simp at hav

theorem generateAudio_not_playable (env : TtsEnv) (s : AppState) (t : String)
    (hav : remoteAudioUnavailable env t = true) :
    (generateAudio env s t).url = "" ∨
    (generateAudio env s t).url = "web-speech-synthesis" := by
  unfold remoteAudioUnavailable at hav
  simp only [generateAudio]
  rcases hr : (ttsServe env t).1 with b | ⟨st, m⟩
  · rw [hr] at hav
    have hb : b = "" := by simpa using hav
    subst hb
    dsimp only
    rw [if_neg (by simp)]
    split_ifs <;> simp
  · dsimp only
    split_ifs <;> simp

/-- The tiers actually attempted by one `startSpeech` run: the edge
function's vendor calls, followed by platform synthesis exactly when the
remote chain produced no audio. -/
theorem startSpeechRun_trace (env : TtsEnv) (s : AppState) (mid content : String)
    (hcl : ¬ jsTrim (cleanTextForSpeech content) = "") :
    (startSpeechRun env s mid content).trace =
      (ttsServe env (cleanTextForSpeech content)).2 ++
        (if remoteAudioUnavailable env (cleanTextForSpeech content) = true
         then [Tier.web] else []) ∧
    (startSpeechRun env s mid content).threw = false := by
  by_cases hav : remoteAudioUnavailable env (cleanTextForSpeech content) = true
  · have hu := generateAudio_not_playable env
      (startSpeechLoading s mid content) (cleanTextForSpeech content) hav
    have hcond : ¬((generateAudio env (startSpeechLoading s mid content)
        (cleanTextForSpeech content)).url ≠ "" ∧
        (generateAudio env (startSpeechLoading s mid content)
          (cleanTextForSpeech content)).url ≠ "web-speech-synthesis") := by
      rcases hu with hu | hu <;> rw [hu] <;> simp
    simp only [startSpeechRun]
    rw [if_neg hcond]
    by_cases hr2 : (speakWithWebSpeech (setMessageAudioUrl
        (startSpeechLoading s mid content) mid "web-speech-synthesis") mid
        (cleanTextForSpeech content) 0).2 = true
    · rw [if_pos hr2]
      dsimp only
      rw [generateAudio_trace, if_neg hcl, if_pos hav]
      exact ⟨rfl, rfl⟩
    · rw [if_neg hr2]
      dsimp only
      rw [generateAudio_trace, if_neg hcl, if_pos hav]
      exact ⟨rfl, rfl⟩
  · have hp := generateAudio_playable env
      (startSpeechLoading s mid content) (cleanTextForSpeech content)
      (by simpa using hav)
    simp only [startSpeechRun]
    rw [if_pos hp]
    dsimp only
    rw [generateAudio_trace, if_neg hav]
    exact ⟨(List.append_nil _).symm, rfl⟩

/-- Vendor-call trace of the edge function, characterised against the
availability of each tier. -/
theorem ttsServe_char (env : TtsEnv) (t : String) (ht : ¬ t = "")
    (hwfE : ∀ b, env.eleven = .ok b → ¬ b = "")
    (hwfO : ∀ b, env.openai = .ok b → ¬ b = "") :
    List.Chain' (fun a b => a.idx ≤ b.idx)
      ((ttsServe env t).2 ++
        (if remoteAudioUnavailable env t = true then [Tier.web] else [])) ∧
    (Tier.eleven ∈ (ttsServe env t).2 ↔ env.elevenKey = true) ∧
    (Tier.openai ∈ (ttsServe env t).2 ↔
      (env.openaiKey = true ∧ elevenUnavailableB env = true)) ∧
    (Tier.web ∉ (ttsServe env t).2) ∧
    (remoteAudioUnavailable env t = true ↔
      (elevenUnavailableB env = true ∧ openaiUnavailableB env = true)) := by
  rcases env with ⟨ek, okk, eth, eo, oo⟩
  cases ek <;> cases okk <;> cases eth <;> rcases eo with b1 | ⟨st1, m1⟩ <;>
    rcases oo with b2 | ⟨st2, m2⟩ <;>
    simp_all [ttsServe, remoteAudioUnavailable, elevenUnavailableB, elevenFailsB,
      openaiUnavailableB, openaiFailsB, Tier.idx, List.chain'_cons, beq_iff_eq]

set_option linter.constructorNameAsVariable false in
/-- C1: on every narration request that reaches the provider chain, the
tiers are attempted in the fixed order ElevenLabs → OpenAI TTS → platform
synthesis (the trace is monotone in tier index, so never reordered);
ElevenLabs is called iff configured, OpenAI exactly when it is configured
and the primary failed or was unconfigured, platform synthesis exactly when
both remote tiers failed or were unconfigured; and `startSpeech` raises no
provider error to its caller. -/
theorem c1_provider_chain (env : TtsEnv) (s : AppState) (mid content : String)
    (hm : s.isMuted = false)
    (ht : ¬ jsTrim content = "")
    (hmark : ¬ errorMarkers content = true)
    (hcl : ¬ jsTrim (cleanTextForSpeech content) = "")
    (hwfE : ∀ b, env.eleven = .ok b → ¬ b = "")
    (hwfO : ∀ b, env.openai = .ok b → ¬ b = "") :
    List.Chain' (fun a b => a.idx ≤ b.idx) (startSpeech env s mid content).trace ∧
    (Tier.eleven ∈ (startSpeech env s mid content).trace ↔ env.elevenKey = true) ∧
    (Tier.openai ∈ (startSpeech env s mid content).trace ↔
      (env.openaiKey = true ∧ elevenUnavailableB env = true)) ∧
    (Tier.web ∈ (startSpeech env s mid content).trace ↔
      (elevenUnavailableB env = true ∧ openaiUnavailableB env = true)) ∧
    (startSpeech env s mid content).threw = false := by
  have htne : ¬ cleanTextForSpeech content = "" :=
    fun h => hcl (by rw [h]; decide)
  obtain ⟨htr, hthrew⟩ := startSpeechRun_trace env s mid content hcl
  obtain ⟨hch, he, ho, hwn, hrem⟩ :=
    ttsServe_char env (cleanTextForSpeech content) htne hwfE hwfO
  rw [startSpeech_eq_run env s mid content hm ht hmark, htr]
  clear hcl htne
  generalize cleanTextForSpeech content = T at htr hch he ho hwn hrem ⊢
  generalize remoteAudioUnavailable env T = B at hch hrem ⊢
  generalize (ttsServe env T).2 = A at hch he ho hwn ⊢
  have hBe : Tier.eleven ∉ (if B = true then [Tier.web] else []) := by
    split_ifs <;> simp
  have hBo : Tier.openai ∉ (if B = true then [Tier.web] else []) := by
    split_ifs <;> simp
  refine ⟨hch, ?_, ?_, ?_, hthrew⟩
  · rw [List.mem_append, he]
    simp [hBe]
  · rw [List.mem_append, ho]
    simp [hBo]
  · rw [List.mem_append]
    by_cases hav : B = true
    · rw [if_pos hav]
      constructor
      · intro _
        exact hrem.mp hav
      · intro _
        exact Or.inr (List.mem_singleton_self _)
    · rw [if_neg hav]
      simp only [List.not_mem_nil, or_false]
      constructor
      · intro h
        exact absurd h hwn
      · intro h
        exact absurd (hrem.mpr h) hav

/-- Witness for C1 with ElevenLabs configured but rate-limited (429), OpenAI
configured and healthy: exactly tiers 1 and 2 attempted, in order. -/
theorem c1_provider_chain_witness :
    Tier.openai ∈ (startSpeech ⟨true, true, false, .httpErr 429 "rate", .ok "AA"⟩
      initState "m1" "hello world").trace :=
  ((c1_provider_chain ⟨true, true, false, .httpErr 429 "rate", .ok "AA"⟩
    initState "m1" "hello world" rfl (by decide) (by decide) (by decide)
    (by intro b hb; cases hb) (by intro b hb; cases hb; decide)).2.2.1).mpr
    ⟨rfl, by decide⟩

/-- Witness for C4: both vendor keys unconfigured, platform synthesis
unsupported, a plain content string. -/
theorem c4_total_failure_text_only_witness :
    (startSpeech ⟨false, false, false, .ok "a", .ok "b"⟩ initState "m1"
      "hello there").state.speechState = emptySpeechState :=
  (c4_total_failure_text_only ⟨false, false, false, .ok "a", .ok "b"⟩ initState
    "m1" "hello there" rfl (by decide) (by decide) rfl (by decide)).1

theorem ids_map_invariant (f : Message → Message) (hf : ∀ m, (f m).id = m.id)
    (l : List Message) : (l.map f).map Message.id = l.map Message.id := by
  induction l with
  | nil => rfl
  | cons a tl ih => simp [hf, ih]

theorem countP_id_le_one (mid : String) (l : List Message)
    (h : (l.map Message.id).Nodup) :
    l.countP (fun m => m.id == mid) ≤ 1 := by
  induction l with
  | nil => simp
  | cons m tl ih =>
    simp only [List.map_cons, List.nodup_cons] at h
    rw [List.countP_cons]
    by_cases hm : (m.id == mid) = true
    · have hz : tl.countP (fun m => m.id == mid) = 0 := by
        rw [List.countP_eq_zero]
        intro a ha hpa
        apply h.1
        have ha2 : a.id = mid := by simpa using hpa
        have hm2 : m.id = mid := by simpa using hm
        rw [hm2, ← ha2]
        exact List.mem_map_of_mem Message.id ha
      rw [hz, if_pos hm]
    · rw [if_neg hm]
      simpa using ih h.2

theorem countP_playing_map_le_one (mid : String) (l : List Message)
    (h : (l.map Message.id).Nodup) :
    (l.map (fun m => if m.id == mid then { m with isPlaying := true }
      else { m with isPlaying := false })).countP (fun m => m.isPlaying) ≤ 1 := by
  rw [List.countP_map]
  have hfe : ((fun m : Message => m.isPlaying) ∘
      (fun m => if m.id == mid then { m with isPlaying := true }
        else { m with isPlaying := false })) = (fun m : Message => m.id == mid) := by
    funext m
    by_cases hm : (m.id == mid) = true <;> simp [Function.comp, hm]
  rw [hfe]
  exact countP_id_le_one mid l h

theorem inv_of_msgs (s s' : AppState) (h : Inv s) (hm : s'.messages = s.messages) :
    Inv s' := by
  unfold Inv playingCount at *
  rw [hm]
  exact h

theorem inv_setPlaying (s : AppState) (mid : String) (h : Inv s) (s' : AppState)
    (hm : s'.messages = s.messages.map (fun m =>
      if m.id == mid then { m with isPlaying := true }
      else { m with isPlaying := false })) : Inv s' := by
  unfold Inv playingCount at *
  rw [hm]
  constructor
  · rw [ids_map_invariant _
      (fun m => by by_cases hc : (m.id == mid) = true <;> simp [hc]) _]
    exact h.1
  · exact countP_playing_map_le_one mid s.messages h.1

theorem inv_clearAll (s : AppState) (h : Inv s) (s' : AppState)
    (hm : s'.messages = clearAllPlaying s.messages) : Inv s' := by
  unfold Inv playingCount at *
  rw [hm]
  unfold clearAllPlaying
  constructor
  · rw [ids_map_invariant (fun m => { m with isPlaying := false })
      (fun m => rfl) s.messages]
    exact h.1
  · rw [List.countP_map]
    have hz : s.messages.countP ((fun m : Message => m.isPlaying) ∘
        (fun m => { m with isPlaying := false })) = 0 :=
      List.countP_eq_zero.mpr (fun a _ => by simp [Function.comp])
    rw [hz]
    omega

theorem inv_condClear (s : AppState) (mid : String) (h : Inv s) (s' : AppState)
    (hm : s'.messages = s.messages.map (fun m =>
      if m.id == mid then { m with isPlaying := false } else m)) : Inv s' := by
  unfold Inv playingCount at *
  rw [hm]
  constructor
  · rw [ids_map_invariant _
      (fun m => by by_cases hc : (m.id == mid) = true <;> simp [hc]) _]
    exact h.1
  · rw [List.countP_map]
    refine le_trans (List.countP_mono_left (fun a _ hpa => ?_)) h.2
    by_cases hc : (a.id == mid) = true <;> simp [Function.comp, hc] at hpa ⊢
    exact hpa

theorem inv_audioUrlMap (s : AppState) (mid url : String) (h : Inv s)
    (s' : AppState) (hm : s'.messages = s.messages.map (fun m =>
      if m.id == mid then { m with audioUrl := some url } else m)) : Inv s' := by
  unfold Inv playingCount at *
  rw [hm]
  constructor
  · rw [ids_map_invariant _
      (fun m => by by_cases hc : (m.id == mid) = true <;> simp [hc]) _]
    exact h.1
  · rw [List.countP_map]
    have hfe : ((fun m : Message => m.isPlaying) ∘ (fun m =>
        if m.id == mid then { m with audioUrl := some url } else m)) =
        (fun m : Message => m.isPlaying) := by
      funext m
      by_cases hc : (m.id == mid) = true <;> simp [Function.comp, hc]
    rw [hfe]
    exact h.2

theorem inv_append (s : AppState) (m : Message) (h : Inv s)
    (hfresh : ∀ m' ∈ s.messages, m'.id ≠ m.id) (hnp : m.isPlaying = false)
    (s' : AppState) (hm : s'.messages = s.messages ++ [m]) : Inv s' := by
  unfold Inv playingCount at *
  rw [hm]
  constructor
  · rw [List.map_append, List.nodup_append]
    refine ⟨h.1, by simp, ?_⟩
    intro a ha
    simp only [List.map_cons, List.map_nil, List.mem_singleton]
    obtain ⟨m', hm', rfl⟩ := List.mem_map.mp ha
    exact fun hcontra => hfresh m' hm' (by simpa using hcontra)
  · rw [List.countP_append]
    have hz : List.countP (fun m => m.isPlaying) [m] = 0 := by simp [hnp]
    omega

theorem inv_stopSpeech (s : AppState) (h : Inv s) : Inv (stopSpeech s).1 := by
  unfold stopSpeech
  cases hs : s.webSpeechSupported
  · simp only [hs]
    exact inv_of_msgs s _ h rfl
  · simp only [hs]
    exact inv_clearAll s h _ rfl

theorem inv_pauseSpeech (s : AppState) (h : Inv s) : Inv (pauseSpeech s).1 := by
  unfold pauseSpeech
  rcases hmid : s.speechState.messageId with _ | mid
  · exact h
  · cases hs : s.webSpeechSupported
    · simp only [hs]
      exact inv_of_msgs s _ h rfl
    · simp only [hs]
      exact inv_condClear s mid h _ rfl

theorem inv_playSpeechFromPosition (s : AppState) (mid url text : String)
    (pos : Nat) (h : Inv s) : Inv (playSpeechFromPosition s mid url text pos) :=
  inv_setPlaying s mid h _ rfl

theorem inv_playAudio (s : AppState) (mid url : String) (h : Inv s) :
    Inv (playAudio s mid url) :=
  inv_setPlaying s mid h _ rfl

theorem inv_playAudioEnded (s : AppState) (mid : String) (h : Inv s) :
    Inv (playAudioEnded s mid) :=
  inv_condClear s mid h _ rfl

theorem inv_stopAudio (s : AppState) (h : Inv s) : Inv (stopAudio s) := by
  unfold stopAudio
  rcases s.currentAudio with _ | a
  · exact h
  · exact inv_clearAll s h _ rfl

theorem inv_speakWithWebSpeech (s : AppState) (mid text : String) (pos : Nat)
    (h : Inv s) : Inv (speakWithWebSpeech s mid text pos).1 := by
  unfold speakWithWebSpeech
  by_cases hcl : jsTrim (strDropChars pos text) = ""
  · rw [if_pos hcl]
    exact inv_stopSpeech s h
  · rw [if_neg hcl]
    cases hs : s.webSpeechSupported
    · simp only [hs]
      exact h
    · simp only [hs]
      exact inv_setPlaying s mid h _ rfl

theorem inv_webSpeechTick (s : AppState) (text : String) (pos e : Nat)
    (h : Inv s) : Inv (webSpeechTick s text pos e) := by
  unfold webSpeechTick
  split_ifs
  · exact inv_of_msgs s _ h rfl
  · exact h

theorem inv_setMessageAudioUrl (s : AppState) (mid url : String) (h : Inv s) :
    Inv (setMessageAudioUrl s mid url) :=
  inv_audioUrlMap s mid url h _ rfl

theorem inv_resumeSpeech (s : AppState) (h : Inv s) : Inv (resumeSpeech s).1 := by
  unfold resumeSpeech
  rcases hmid : s.speechState.messageId with _ | mid
  · exact h
  · dsimp only
    by_cases hp : s.speechState.isPaused = true
    · rw [if_pos hp]
      rcases hf : s.messages.find? (fun m => m.id == mid) with _ | m
      · rw [hf]
        exact inv_speakWithWebSpeech s mid s.speechState.text
          s.speechState.position h
      · rw [hf]
        dsimp only
        rcases hau : m.audioUrl with _ | url
        · exact inv_speakWithWebSpeech s mid s.speechState.text
            s.speechState.position h
        · dsimp only
          split_ifs
          · exact inv_playSpeechFromPosition s mid url s.speechState.text
              s.speechState.position h
          · exact inv_speakWithWebSpeech s mid s.speechState.text
              s.speechState.position h
    · rw [if_neg hp]
      exact h

theorem inv_startSpeechRun (env : TtsEnv) (s : AppState) (mid content : String)
    (h : Inv s) : Inv (startSpeechRun env s mid content).state := by
  have h1 : Inv (startSpeechLoading s mid content) := inv_of_msgs s _ h rfl
  simp only [startSpeechRun]
  generalize cleanTextForSpeech content = T
  generalize generateAudio env (startSpeechLoading s mid content) T = G
  have h2 : ∀ url, Inv (setMessageAudioUrl (startSpeechLoading s mid content) mid url) :=
    fun url => inv_setMessageAudioUrl _ mid url h1
  split_ifs with hc1
  · exact inv_playSpeechFromPosition _ mid G.url T 0 (h2 G.url)
  all_goals
    first
      | exact inv_of_msgs
          (speakWithWebSpeech (setMessageAudioUrl (startSpeechLoading s mid content)
            mid "web-speech-synthesis") mid T 0).1 _
          (inv_speakWithWebSpeech _ mid T 0 (h2 "web-speech-synthesis")) rfl
      | exact inv_speakWithWebSpeech _ mid T 0 (h2 "web-speech-synthesis")

theorem inv_startSpeech (env : TtsEnv) (s : AppState) (mid content : String)
    (h : Inv s) : Inv (startSpeech env s mid content).state := by
  unfold startSpeech
  split_ifs
  · exact h
  · exact h
  · exact h
  · exact inv_startSpeechRun env s mid content h

theorem inv_sendQuestionCatch (s : AppState) (now : Nat) (msg : String)
    (h : Inv s) (hfresh : ∀ m' ∈ s.messages, m'.id ≠ "error-" ++ toString now) :
    Inv (sendQuestionCatch s now msg).1 :=
  inv_append s _ h hfresh rfl _ rfl

theorem inv_handleReadAloud (env : TtsEnv) (s : AppState) (mid content : String)
    (h : Inv s) : Inv (handleReadAloud env s mid content).state := by
  unfold handleReadAloud
  split_ifs
  · exact inv_resumeSpeech s h
  · exact h
  · exact inv_pauseSpeech s h
  · dsimp only
    by_cases hs2 : (stopSpeech s).2 = true
    · rw [if_pos hs2]
      exact inv_stopSpeech s h
    · rw [if_neg hs2]
      exact inv_startSpeech env (stopSpeech s).1 mid content (inv_stopSpeech s h)

theorem step_preserves_inv (s s' : AppState) (hstep : Step s s') (h : Inv s) :
    Inv s' := by
  cases hstep with
  | playAudioS s mid url => exact inv_playAudio s mid url h
  | playAudioEndedS s mid => exact inv_playAudioEnded s mid h
  | stopAudioS s => exact inv_stopAudio s h
  | playFromPosS s mid url text pos => exact inv_playSpeechFromPosition s mid url text pos h
  | speakWebS s mid text pos => exact inv_speakWithWebSpeech s mid text pos h
  | pauseS s => exact inv_pauseSpeech s h
  | resumeS s => exact inv_resumeSpeech s h
  | stopS s => exact inv_stopSpeech s h
  | startS env s mid content => exact inv_startSpeech env s mid content h
  | readAloudS env s mid content => exact inv_handleReadAloud env s mid content h
  | webTickS s text pos e => exact inv_webSpeechTick s text pos e h
  | setAudioUrlS s mid url => exact inv_setMessageAudioUrl s mid url h
  | appendMsgS s m hfresh hnp => exact inv_append s m h hfresh hnp _ rfl
  | sendCatchS s now msg hfresh => exact inv_sendQuestionCatch s now msg h hfresh
  | setMutedS s b => exact inv_of_msgs s _ h rfl
  | setSupportedS s b => exact inv_of_msgs s _ h rfl

theorem reachable_inv (s : AppState) (h : Reachable s) : Inv s := by
  unfold Reachable at h
  induction h with
  | refl =>
    constructor
    · simp [initState]
    · simp [initState, playingCount]
  | tail h1 h2 ih => exact step_preserves_inv _ _ h2 ih

/-- C2: at every reachable state at most one message has `isPlaying = true`
(every playback-starting operation sets it true only on its target and
false everywhere else, and message ids are distinct), and `handleReadAloud`
on the currently tracked message only resumes, pauses, or no-ops while
loading — it never stops and restarts a second narration. -/
theorem c2_single_flight (s : AppState) (h : Reachable s) :
    playingCount s ≤ 1 ∧
    (∀ env mid content, s.speechState.messageId = some mid →
      handleReadAloud env s mid content =
        (if s.speechState.isPaused then
          { state := (resumeSpeech s).1, trace := [], toasts := [],
            threw := (resumeSpeech s).2 }
         else if s.speechState.isLoading then
          { state := s, trace := [], toasts := [], threw := false }
         else
          { state := (pauseSpeech s).1, trace := [], toasts := [],
            threw := (pauseSpeech s).2 })) := by
  refine ⟨(reachable_inv s h).2, ?_⟩
  intro env mid content hmid
  unfold handleReadAloud
  rw [if_pos hmid]

/-- Witness for C2 at the initial state. -/
theorem c2_single_flight_witness : playingCount initState ≤ 1 :=
  (c2_single_flight initState Relation.ReflTransGen.refl).1

end AskLumen

